import Mathlib

/-!
Verification development for maschinemk2.rs (src/main.rs): a shallow
embedding of the OSC/MIDI translation layer (MHandler) and the protocol
tables, with the device-interface state modelled from the specification
(the device driver sources base.rs / devices/ are not part of this tree).

Modelling conventions:
* machine integers are Nat/Int with explicit wrap (`% 256` for u8 in
  release-mode wrapping semantics, `% 2^32` / `% 2^64` for the i32 casts);
* f32 values are modelled as exact rationals; the transcendental f32
  operations (powf, sqrt) and the external hsl crate's to_rgb conversion
  are abstracted into a FloatOps record passed explicitly, since the spec
  places color-space conversion out of scope and no claim depends on
  their pointwise values;
* the Rust `as U7` cast (f32 to u8) truncates toward zero and saturates,
  modelled by f32_as_u8;
* MIDI sends and outbound OSC datagrams become explicit trace lists;
* fallible code (the byte slice `&path[17..]`, which panics when the path
  is shorter than 17 bytes) returns Option, with `none` marking a panic.
  OSC paths are treated as ASCII, so byte indices coincide with character
  indices.
-/

inductive MaschineButton where
  | Restart
  | Stepleft
  | Stepright
  | Grid
  | Play
  | Rec
  | Erase
  | Shift
  | Browse
  | Sampling
  | Noterepeat
  | Encoder
  | F1
  | F2
  | F3
  | F4
  | F5
  | F6
  | F7
  | F8
  | Swing
  | Step
  | Volume
  | Enter
  | Auto
  | All
  | Navigate
  | Tempo
  | Control
  | Nav
  | Navleft
  | Navright
  | Main
  | Scene
  | Pattern
  | Padmode
  | View
  | Duplicate
  | Select
  | Solo
  | Mute
  | GroupA
  | GroupB
  | GroupC
  | GroupD
  | GroupE
  | GroupF
  | GroupG
  | GroupH
  | Pageright
  | Pageleft
  | R1
  | R2
  | R3
  | R4
  | R5
  | R6
  | R7
  | R8
  | A1
  | A2
  | A3
  | A4
  | A5
  | A6
  | A7
  | A8
  | B1
  | B2
  | B3
  | B4
  | B5
  | B6
  | B7
  | B8
  | C1
  | C2
  | C3
  | C4
  | C5
  | C6
  | C7
  | C8
  | D1
  | D2
  | D3
  | D4
  | D5
  | D6
  | D7
  | D8
  | E1
  | E2
  | E3
  | E4
  | E5
  | E6
  | E7
  | E8
  | FF1
  | FF2
  | FF3
  | FF4
  | FF5
  | FF6
  | FF7
  | FF8
  | G1
  | G2
  | G3
  | G4
  | G5
  | G6
  | G7
  | G8
  | H1
  | H2
  | H3
  | H4
  | H5
  | H6
  | H7
  | H8
  | I1
  | I2
  | I3
  | I4
  | I5
  | I6
  | I7
  | I8
  | J1
  | J2
  | J3
  | J4
  | J5
  | J6
  | J7
  | J8
  | K1
  | K2
  | K3
  | K4
  | K5
  | K6
  | K7
  | K8
  | L1
  | L2
  | L3
  | L4
  | L5
  | L6
  | L7
  | L8
  | M1
  | M2
  | M3
  | M4
  | M5
  | M6
  | M7
  | M8
  | N1
  | N2
  | N3
  | N4
  | N5
  | N6
  | N7
  | N8
  | O1
  | O2
  | O3
  | O4
  | O5
  | O6
  | O7
  | O8
  | P1
  | P2
  | P3
  | P4
  | P5
  | P6
  | P7
  | P8
  deriving DecidableEq

def btn_to_osc_button_map : MaschineButton → String
  | .Restart => "restart"
  | .Stepleft => "step_left"
  | .Stepright => "step_right"
  | .Grid => "grid"
  | .Play => "play"
  | .Rec => "rec"
  | .Erase => "stop"
  | .Shift => "shift"
  | .Browse => "browse"
  | .Sampling => "sampling"
  | .Noterepeat => "note_repeat"
  | .Encoder => "encoder"
  | .F1 => "f1"
  | .F2 => "f2"
  | .F3 => "f3"
  | .F4 => "f4"
  | .F5 => "f5"
  | .F6 => "f6"
  | .F7 => "f7"
  | .F8 => "f8"
  | .Swing => "swing"
  | .Step => "step"
  | .Volume => "volume"
  | .Enter => "enter"
  | .Auto => "auto"
  | .All => "all"
  | .Navigate => "navigate"
  | .Tempo => "tempo"
  | .Control => "control"
  | .Nav => "nav"
  | .Navleft => "nav_left"
  | .Navright => "nav_right"
  | .Main => "main"
  | .Scene => "scene"
  | .Pattern => "pattern"
  | .Padmode => "pad_mode"
  | .View => "view"
  | .Duplicate => "duplicate"
  | .Select => "select"
  | .Solo => "solo"
  | .Mute => "mute"
  | .GroupA => "group_a"
  | .GroupB => "group_b"
  | .GroupC => "group_c"
  | .GroupD => "group_d"
  | .GroupE => "group_e"
  | .GroupF => "group_f"
  | .GroupG => "group_g"
  | .GroupH => "group_h"
  | .Pageright => "page_right"
  | .Pageleft => "page_left"
  | .R1 => "R1"
  | .R2 => "R2"
  | .R3 => "R3"
  | .R4 => "R4"
  | .R5 => "R5"
  | .R6 => "R6"
  | .R7 => "R7"
  | .R8 => "R8"
  | .A1 => "A1"
  | .A2 => "A2"
  | .A3 => "A3"
  | .A4 => "A4"
  | .A5 => "A5"
  | .A6 => "A6"
  | .A7 => "A7"
  | .A8 => "A8"
  | .B1 => "B1"
  | .B2 => "B2"
  | .B3 => "B3"
  | .B4 => "B4"
  | .B5 => "B5"
  | .B6 => "B6"
  | .B7 => "B7"
  | .B8 => "B8"
  | .C1 => "C1"
  | .C2 => "C2"
  | .C3 => "C3"
  | .C4 => "C4"
  | .C5 => "C5"
  | .C6 => "C6"
  | .C7 => "C7"
  | .C8 => "C8"
  | .D1 => "D1"
  | .D2 => "D2"
  | .D3 => "D3"
  | .D4 => "D4"
  | .D5 => "D5"
  | .D6 => "D6"
  | .D7 => "D7"
  | .D8 => "D8"
  | .E1 => "E1"
  | .E2 => "E2"
  | .E3 => "E3"
  | .E4 => "E4"
  | .E5 => "E5"
  | .E6 => "E6"
  | .E7 => "E7"
  | .E8 => "E8"
  | .FF1 => "FF1"
  | .FF2 => "FF2"
  | .FF3 => "FF3"
  | .FF4 => "FF4"
  | .FF5 => "FF5"
  | .FF6 => "FF6"
  | .FF7 => "FF8"
  | .FF8 => "FF8"
  | .G1 => "G1"
  | .G2 => "G2"
  | .G3 => "G3"
  | .G4 => "G4"
  | .G5 => "G5"
  | .G6 => "G6"
  | .G7 => "G7"
  | .G8 => "G8"
  | .H1 => "H1"
  | .H2 => "H2"
  | .H3 => "H3"
  | .H4 => "H4"
  | .H5 => "H5"
  | .H6 => "H6"
  | .H7 => "H7"
  | .H8 => "H8"
  | .I1 => "I1"
  | .I2 => "I2"
  | .I3 => "I3"
  | .I4 => "I4"
  | .I5 => "I5"
  | .I6 => "I6"
  | .I7 => "I7"
  | .I8 => "I8"
  | .J1 => "J1"
  | .J2 => "J2"
  | .J3 => "J3"
  | .J4 => "J4"
  | .J5 => "J5"
  | .J6 => "J6"
  | .J7 => "J7"
  | .J8 => "J8"
  | .K1 => "K1"
  | .K2 => "K2"
  | .K3 => "K3"
  | .K4 => "K4"
  | .K5 => "K5"
  | .K6 => "K6"
  | .K7 => "K7"
  | .K8 => "K8"
  | .L1 => "L1"
  | .L2 => "L2"
  | .L3 => "L3"
  | .L4 => "L4"
  | .L5 => "L5"
  | .L6 => "L6"
  | .L7 => "L7"
  | .L8 => "L8"
  | .M1 => "M1"
  | .M2 => "M2"
  | .M3 => "M3"
  | .M4 => "M4"
  | .M5 => "M5"
  | .M6 => "M6"
  | .M7 => "M7"
  | .M8 => "M8"
  | .N1 => "N1"
  | .N2 => "N2"
  | .N3 => "N3"
  | .N4 => "N4"
  | .N5 => "N5"
  | .N6 => "N6"
  | .N7 => "N7"
  | .N8 => "N8"
  | .O1 => "O1"
  | .O2 => "O2"
  | .O3 => "O3"
  | .O4 => "O4"
  | .O5 => "O5"
  | .O6 => "O6"
  | .O7 => "O7"
  | .O8 => "O8"
  | .P1 => "P1"
  | .P2 => "P2"
  | .P3 => "P3"
  | .P4 => "P4"
  | .P5 => "P5"
  | .P6 => "P6"
  | .P7 => "P7"
  | .P8 => "P8"

def osc_button_to_btn_map : String → Option MaschineButton
  | "restart" => some .Restart
  | "step_left" => some .Stepleft
  | "step_right" => some .Stepright
  | "grid" => some .Grid
  | "play" => some .Play
  | "rec" => some .Rec
  | "stop" => some .Erase
  | "shift" => some .Shift
  | "browse" => some .Browse
  | "sampling" => some .Sampling
  | "note_repeat" => some .Noterepeat
  | "encoder" => some .Encoder
  | "f1" => some .F1
  | "f2" => some .F2
  | "f3" => some .F3
  | "f4" => some .F4
  | "f5" => some .F5
  | "f6" => some .F6
  | "f7" => some .F7
  | "f8" => some .F8
  | "swing" => some .Swing
  | "step" => some .Step
  | "volume" => some .Volume
  | "enter" => some .Enter
  | "auto" => some .Auto
  | "all" => some .All
  | "navigate" => some .Navigate
  | "tempo" => some .Tempo
  | "control" => some .Control
  | "nav" => some .Nav
  | "nav_left" => some .Navleft
  | "nav_right" => some .Navright
  | "main" => some .Main
  | "scene" => some .Scene
  | "pattern" => some .Pattern
  | "pad_mode" => some .Padmode
  | "view" => some .View
  | "duplicate" => some .Duplicate
  | "select" => some .Select
  | "solo" => some .Solo
  | "mute" => some .Mute
  | "group_a" => some .GroupA
  | "group_b" => some .GroupB
  | "group_c" => some .GroupC
  | "group_d" => some .GroupD
  | "group_e" => some .GroupE
  | "group_f" => some .GroupF
  | "group_g" => some .GroupG
  | "group_h" => some .GroupH
  | "page_right" => some .Pageright
  | "page_left" => some .Pageleft
  | _ => none

/-- Canonical right-to-left reading of btn_to_osc_button_map, used to prove
the injectivity-modulo-FF7/FF8 statement: it inverts every OSC name except
that the duplicated target string maps back to FF8 (FF7 also produces
"FF8" in the forward table). -/
def osc_name_canonical_btn (str : String) : Option MaschineButton :=
  match str.data with
  | ['r', 'e', 's', 't', 'a', 'r', 't'] => some .Restart
  | ['s', 't', 'e', 'p', '_', 'l', 'e', 'f', 't'] => some .Stepleft
  | ['s', 't', 'e', 'p', '_', 'r', 'i', 'g', 'h', 't'] => some .Stepright
  | ['g', 'r', 'i', 'd'] => some .Grid
  | ['p', 'l', 'a', 'y'] => some .Play
  | ['r', 'e', 'c'] => some .Rec
  | ['s', 't', 'o', 'p'] => some .Erase
  | ['s', 'h', 'i', 'f', 't'] => some .Shift
  | ['b', 'r', 'o', 'w', 's', 'e'] => some .Browse
  | ['s', 'a', 'm', 'p', 'l', 'i', 'n', 'g'] => some .Sampling
  | ['n', 'o', 't', 'e', '_', 'r', 'e', 'p', 'e', 'a', 't'] => some .Noterepeat
  | ['e', 'n', 'c', 'o', 'd', 'e', 'r'] => some .Encoder
  | ['f', '1'] => some .F1
  | ['f', '2'] => some .F2
  | ['f', '3'] => some .F3
  | ['f', '4'] => some .F4
  | ['f', '5'] => some .F5
  | ['f', '6'] => some .F6
  | ['f', '7'] => some .F7
  | ['f', '8'] => some .F8
  | ['s', 'w', 'i', 'n', 'g'] => some .Swing
  | ['s', 't', 'e', 'p'] => some .Step
  | ['v', 'o', 'l', 'u', 'm', 'e'] => some .Volume
  | ['e', 'n', 't', 'e', 'r'] => some .Enter
  | ['a', 'u', 't', 'o'] => some .Auto
  | ['a', 'l', 'l'] => some .All
  | ['n', 'a', 'v', 'i', 'g', 'a', 't', 'e'] => some .Navigate
  | ['t', 'e', 'm', 'p', 'o'] => some .Tempo
  | ['c', 'o', 'n', 't', 'r', 'o', 'l'] => some .Control
  | ['n', 'a', 'v'] => some .Nav
  | ['n', 'a', 'v', '_', 'l', 'e', 'f', 't'] => some .Navleft
  | ['n', 'a', 'v', '_', 'r', 'i', 'g', 'h', 't'] => some .Navright
  | ['m', 'a', 'i', 'n'] => some .Main
  | ['s', 'c', 'e', 'n', 'e'] => some .Scene
  | ['p', 'a', 't', 't', 'e', 'r', 'n'] => some .Pattern
  | ['p', 'a', 'd', '_', 'm', 'o', 'd', 'e'] => some .Padmode
  | ['v', 'i', 'e', 'w'] => some .View
  | ['d', 'u', 'p', 'l', 'i', 'c', 'a', 't', 'e'] => some .Duplicate
  | ['s', 'e', 'l', 'e', 'c', 't'] => some .Select
  | ['s', 'o', 'l', 'o'] => some .Solo
  | ['m', 'u', 't', 'e'] => some .Mute
  | ['g', 'r', 'o', 'u', 'p', '_', 'a'] => some .GroupA
  | ['g', 'r', 'o', 'u', 'p', '_', 'b'] => some .GroupB
  | ['g', 'r', 'o', 'u', 'p', '_', 'c'] => some .GroupC
  | ['g', 'r', 'o', 'u', 'p', '_', 'd'] => some .GroupD
  | ['g', 'r', 'o', 'u', 'p', '_', 'e'] => some .GroupE
  | ['g', 'r', 'o', 'u', 'p', '_', 'f'] => some .GroupF
  | ['g', 'r', 'o', 'u', 'p', '_', 'g'] => some .GroupG
  | ['g', 'r', 'o', 'u', 'p', '_', 'h'] => some .GroupH
  | ['p', 'a', 'g', 'e', '_', 'r', 'i', 'g', 'h', 't'] => some .Pageright
  | ['p', 'a', 'g', 'e', '_', 'l', 'e', 'f', 't'] => some .Pageleft
  | ['R', '1'] => some .R1
  | ['R', '2'] => some .R2
  | ['R', '3'] => some .R3
  | ['R', '4'] => some .R4
  | ['R', '5'] => some .R5
  | ['R', '6'] => some .R6
  | ['R', '7'] => some .R7
  | ['R', '8'] => some .R8
  | ['A', '1'] => some .A1
  | ['A', '2'] => some .A2
  | ['A', '3'] => some .A3
  | ['A', '4'] => some .A4
  | ['A', '5'] => some .A5
  | ['A', '6'] => some .A6
  | ['A', '7'] => some .A7
  | ['A', '8'] => some .A8
  | ['B', '1'] => some .B1
  | ['B', '2'] => some .B2
  | ['B', '3'] => some .B3
  | ['B', '4'] => some .B4
  | ['B', '5'] => some .B5
  | ['B', '6'] => some .B6
  | ['B', '7'] => some .B7
  | ['B', '8'] => some .B8
  | ['C', '1'] => some .C1
  | ['C', '2'] => some .C2
  | ['C', '3'] => some .C3
  | ['C', '4'] => some .C4
  | ['C', '5'] => some .C5
  | ['C', '6'] => some .C6
  | ['C', '7'] => some .C7
  | ['C', '8'] => some .C8
  | ['D', '1'] => some .D1
  | ['D', '2'] => some .D2
  | ['D', '3'] => some .D3
  | ['D', '4'] => some .D4
  | ['D', '5'] => some .D5
  | ['D', '6'] => some .D6
  | ['D', '7'] => some .D7
  | ['D', '8'] => some .D8
  | ['E', '1'] => some .E1
  | ['E', '2'] => some .E2
  | ['E', '3'] => some .E3
  | ['E', '4'] => some .E4
  | ['E', '5'] => some .E5
  | ['E', '6'] => some .E6
  | ['E', '7'] => some .E7
  | ['E', '8'] => some .E8
  | ['F', 'F', '1'] => some .FF1
  | ['F', 'F', '2'] => some .FF2
  | ['F', 'F', '3'] => some .FF3
  | ['F', 'F', '4'] => some .FF4
  | ['F', 'F', '5'] => some .FF5
  | ['F', 'F', '6'] => some .FF6
  | ['F', 'F', '8'] => some .FF8
  | ['G', '1'] => some .G1
  | ['G', '2'] => some .G2
  | ['G', '3'] => some .G3
  | ['G', '4'] => some .G4
  | ['G', '5'] => some .G5
  | ['G', '6'] => some .G6
  | ['G', '7'] => some .G7
  | ['G', '8'] => some .G8
  | ['H', '1'] => some .H1
  | ['H', '2'] => some .H2
  | ['H', '3'] => some .H3
  | ['H', '4'] => some .H4
  | ['H', '5'] => some .H5
  | ['H', '6'] => some .H6
  | ['H', '7'] => some .H7
  | ['H', '8'] => some .H8
  | ['I', '1'] => some .I1
  | ['I', '2'] => some .I2
  | ['I', '3'] => some .I3
  | ['I', '4'] => some .I4
  | ['I', '5'] => some .I5
  | ['I', '6'] => some .I6
  | ['I', '7'] => some .I7
  | ['I', '8'] => some .I8
  | ['J', '1'] => some .J1
  | ['J', '2'] => some .J2
  | ['J', '3'] => some .J3
  | ['J', '4'] => some .J4
  | ['J', '5'] => some .J5
  | ['J', '6'] => some .J6
  | ['J', '7'] => some .J7
  | ['J', '8'] => some .J8
  | ['K', '1'] => some .K1
  | ['K', '2'] => some .K2
  | ['K', '3'] => some .K3
  | ['K', '4'] => some .K4
  | ['K', '5'] => some .K5
  | ['K', '6'] => some .K6
  | ['K', '7'] => some .K7
  | ['K', '8'] => some .K8
  | ['L', '1'] => some .L1
  | ['L', '2'] => some .L2
  | ['L', '3'] => some .L3
  | ['L', '4'] => some .L4
  | ['L', '5'] => some .L5
  | ['L', '6'] => some .L6
  | ['L', '7'] => some .L7
  | ['L', '8'] => some .L8
  | ['M', '1'] => some .M1
  | ['M', '2'] => some .M2
  | ['M', '3'] => some .M3
  | ['M', '4'] => some .M4
  | ['M', '5'] => some .M5
  | ['M', '6'] => some .M6
  | ['M', '7'] => some .M7
  | ['M', '8'] => some .M8
  | ['N', '1'] => some .N1
  | ['N', '2'] => some .N2
  | ['N', '3'] => some .N3
  | ['N', '4'] => some .N4
  | ['N', '5'] => some .N5
  | ['N', '6'] => some .N6
  | ['N', '7'] => some .N7
  | ['N', '8'] => some .N8
  | ['O', '1'] => some .O1
  | ['O', '2'] => some .O2
  | ['O', '3'] => some .O3
  | ['O', '4'] => some .O4
  | ['O', '5'] => some .O5
  | ['O', '6'] => some .O6
  | ['O', '7'] => some .O7
  | ['O', '8'] => some .O8
  | ['P', '1'] => some .P1
  | ['P', '2'] => some .P2
  | ['P', '3'] => some .P3
  | ['P', '4'] => some .P4
  | ['P', '5'] => some .P5
  | ['P', '6'] => some .P6
  | ['P', '7'] => some .P7
  | ['P', '8'] => some .P8
  | _ => none

/-- Pressure curve selector, from the PressureShape enum in main.rs. -/
inductive PressureShape where
  | Linear
  | Exponential (power : ℚ)
  | Constant (c_pressure : ℚ)
  deriving DecidableEq

/-- Recognizer for the Constant shape (the suppression test in pad_aftertouch). -/
def PressureShape.is_constant : PressureShape → Bool
  | PressureShape.Constant _ => true
  | _ => false

/-- Hue/saturation/lightness color from the external hsl crate, fields as rationals. -/
structure HSL where
  h : ℚ
  s : ℚ
  l : ℚ

/-- Abstraction of the f32 operations (powf, sqrt) and the external hsl
crate's HSL-to-RGB conversion, whose pointwise values no claim depends on.
Passing this record explicitly keeps every definition executable. -/
structure FloatOps where
  sqrt : ℚ → ℚ
  powf : ℚ → ℚ → ℚ
  to_rgb : HSL → ℕ × ℕ × ℕ

/-- PAD_RELEASED_BRIGHTNESS constant from main.rs (0.015). -/
def PAD_RELEASED_BRIGHTNESS : ℚ := 15 / 1000

/-- PAD_NOTE_MAP constant from main.rs. -/
def PAD_NOTE_MAP : Fin 16 → ℕ := ![12, 13, 14, 15, 8, 9, 10, 11, 4, 5, 6, 7, 0, 1, 2, 3]

/-- Rust cast i32 -> u8 (two's-complement truncation to the low byte). -/
def i32_as_u8 (v : ℤ) : ℕ := (v % 256).toNat

/-- Rust cast i32 -> u32 (two's-complement reinterpretation). -/
def i32_as_u32 (v : ℤ) : ℕ := (v % 4294967296).toNat

/-- Rust cast i32 -> usize (sign-extension to 64 bits, reinterpreted). -/
def i32_as_usize (v : ℤ) : ℕ := (v % 18446744073709551616).toNat

/-- Rust cast f32 -> u8 (`as U7` in pressure_to_vel): truncation toward
zero, saturating at the bounds of u8. -/
def f32_as_u8 (x : ℚ) : ℕ := if x < 0 then 0 else min 255 (Int.toNat ⌊x⌋)

/-- Modelled from the spec: the device-interface state owned by the device
driver (base.rs / devices/ are not in this tree). Spec section 3: per-pad and
per-button 24-bit RGB color plus normalized brightness, and a single mutable
byte midi_note_base. -/
structure MaschineState where
  midi_note_base : ℕ
  pad_lights : Fin 16 → ℕ × ℚ
  button_lights : MaschineButton → ℕ × ℚ

/-- Modelled from the spec (section 4.1): accessor, no computation. -/
def MaschineState.get_midi_note_base (st : MaschineState) : ℕ :=
  st.midi_note_base

/-- Modelled from the spec (section 4.1): mutator storing a byte, no
validation beyond the u8 storage. -/
def MaschineState.set_midi_note_base (st : MaschineState) (v : ℕ) : MaschineState :=
  { st with midi_note_base := v % 256 }

/-- Modelled from the spec (section 4.1): pure in-memory mutation; an
out-of-range index is the caller's responsibility and is left without
effect here (the spec leaves it to the hardware encoding). -/
def MaschineState.set_pad_light (st : MaschineState) (idx : ℕ) (rgb : ℕ) (brightness : ℚ) :
    MaschineState :=
  if h : idx < 16 then
    { st with pad_lights := Function.update st.pad_lights ⟨idx, h⟩ (rgb, brightness) }
  else st

/-- Modelled from the spec (section 4.1): pure in-memory mutation. -/
def MaschineState.set_button_light (st : MaschineState) (btn : MaschineButton) (rgb : ℕ)
    (brightness : ℚ) : MaschineState :=
  { st with button_lights := Function.update st.button_lights btn (rgb, brightness) }

/-- MIDI channel from the midi crate (only Ch1 is used by this driver). -/
inductive Channel where
  | Ch1
  | Ch2
  | Ch3
  | Ch4
  | Ch5
  | Ch6
  | Ch7
  | Ch8
  | Ch9
  | Ch10
  | Ch11
  | Ch12
  | Ch13
  | Ch14
  | Ch15
  | Ch16
  deriving DecidableEq

/-- MIDI messages emitted by the handler (midi crate constructors used by main.rs). -/
inductive MidiMessage where
  | NoteOn (ch : Channel) (note : ℕ) (velocity : ℕ)
  | NoteOff (ch : Channel) (note : ℕ) (velocity : ℕ)
  | PolyphonicPressure (ch : Channel) (note : ℕ) (value : ℕ)
  | RPN7 (ch : Channel) (param : ℕ) (value : ℕ)
  deriving DecidableEq

/-- OSC argument (tinyosc): int32, float32, or another codec-supported type
unused by this driver (represented by the string constructor). -/
inductive OscArg where
  | i (v : ℤ)
  | f (v : ℚ)
  | s (v : String)
  deriving DecidableEq

/-- OSC message: path plus typed argument list. -/
structure OscMessage where
  path : String
  arguments : List OscArg
  deriving DecidableEq

/-- Handler configuration state (MHandler struct fields that the logic
reads; sequencer handles and sockets become explicit traces). -/
structure MHandler where
  color : HSL
  pressure_shape : PressureShape
  send_aftertouch : Bool

/-- MHandler::pad_color: packs the rgb triple from to_rgb into a u32. -/
def MHandler.pad_color (self : MHandler) (ops : FloatOps) : ℕ :=
  let rgb := ops.to_rgb self.color
  ((rgb.1 % 256) <<< 16) ||| ((rgb.2.1 % 256) <<< 8) ||| (rgb.2.2 % 256)

/-- MHandler::pressure_to_vel: shapes the normalized pressure and casts
the scaled result with the truncating, saturating `as U7` cast. -/
def MHandler.pressure_to_vel (self : MHandler) (ops : FloatOps) (pressure : ℚ) : ℕ :=
  f32_as_u8 ((match self.pressure_shape with
    | PressureShape.Linear => pressure
    | PressureShape.Exponential power => ops.powf pressure power
    | PressureShape.Constant c_pressure => c_pressure) * 127)

/-- Rust str::starts_with on the character list of the string (OSC paths
are ASCII, so byte positions and character positions coincide). -/
def starts_with (str pre : String) : Bool :=
  List.isPrefixOf pre.data str.data

/-- Rust byte slice from an index to the end of the string, as used on the
OSC path: out-of-bounds start index is a panic, modelled by none. -/
def str_slice_from (str : String) (idx : ℕ) : Option String :=
  if idx ≤ str.data.length then some (String.mk (str.data.drop idx)) else none

/-- MHandler::handle_osc_messge (sic): inbound OSC dispatch. Returns none
exactly when the original code panics (path slicing out of bounds). -/
def handle_osc_messge (st : MaschineState) (msg : OscMessage) : Option MaschineState :=
  if starts_with msg.path "/maschine/button" then
    match str_slice_from msg.path 17 with
    | none => none
    | some name =>
      match osc_button_to_btn_map name with
      | none => some st
      | some btn =>
        match msg.arguments with
        | [a0] =>
          match a0 with
          | OscArg.i val => some (st.set_button_light btn 0xFFFFFF (val : ℚ))
          | OscArg.f val => some (st.set_button_light btn 0xFFFFFF val)
          | _ => some st
        | [a0, a1] =>
          match a0, a1 with
          | OscArg.i color, OscArg.f brightness =>
            some (st.set_button_light btn (i32_as_u32 color &&& 0xFFFFFF) brightness)
          | _, _ => some st
        | _ => some st
  else if starts_with msg.path "/maschine/pad" then
    match msg.arguments with
    | [OscArg.i pad, OscArg.i color, OscArg.f brightness] =>
      some (st.set_pad_light (i32_as_usize pad) (i32_as_u32 color &&& 0xFFFFFF) brightness)
    | _ => some st
  else if starts_with msg.path "/maschine/midi_note_base" then
    match msg.arguments with
    | [OscArg.i base] => some (st.set_midi_note_base (i32_as_u8 base))
    | _ => some st
  else
    some st

/-- Shorthand for the repeated block in send_osc_button_msg: send
RPN7(Ch1, param, status as u8) only when status > 0. -/
def gated_rpn7 (param : ℕ) (status : ℕ) : List MidiMessage :=
  if status > 0 then [MidiMessage.RPN7 Channel.Ch1 param (status % 256)] else []

/-- MHandler::send_osc_button_msg: the per-button-name MIDI side effect
(match on the OSC name string, as in the source), followed by the
unconditional outbound OSC mirror datagram. Result: (new device state,
MIDI trace, outbound OSC trace). -/
def send_osc_button_msg (st : MaschineState) (btn : MaschineButton) (status : ℕ) :
    MaschineState × List MidiMessage × List OscMessage :=
  let button := btn_to_osc_button_map btn
  let controlbase := 40
  let midiStep : MaschineState × List MidiMessage :=
    match button with
    | "play" => (st, gated_rpn7 1 status)
    | "stop" => (st, gated_rpn7 2 status)
    | "rec" => (st, gated_rpn7 3 status)
    | "grid" => (st, gated_rpn7 4 status)
    | "step_left" => (st, gated_rpn7 5 status)
    | "step_right" => (st, gated_rpn7 6 status)
    | "restart" => (st, gated_rpn7 7 status)
    | "browse" => (st, gated_rpn7 8 status)
    | "sampling" => (st, gated_rpn7 9 status)
    | "note_repeat" => (st, gated_rpn7 10 status)
    | "control" => (st, gated_rpn7 11 status)
    | "nav" => (st, gated_rpn7 12 status)
    | "nav_left" => (st, gated_rpn7 13 status)
    | "nav_right" => (st, gated_rpn7 14 status)
    | "main" => (st, gated_rpn7 15 status)
    | "scene" => (st, gated_rpn7 16 status)
    | "pattern" => (st, gated_rpn7 17 status)
    | "pad_mode" => (st, gated_rpn7 18 status)
    | "view" => (st, gated_rpn7 19 status)
    | "duplicate" => (st, gated_rpn7 20 status)
    | "select" => (st, gated_rpn7 21 status)
    | "solo" => (st, gated_rpn7 22 status)
    | "step" => (st, gated_rpn7 23 status)
    | "mute" => (st, gated_rpn7 24 status)
    | "navigate" => (st, gated_rpn7 25 status)
    | "tempo" => (st, gated_rpn7 26 status)
    | "enter" => (st, gated_rpn7 27 status)
    | "auto" => (st, gated_rpn7 28 status)
    | "all" => (st, gated_rpn7 29 status)
    | "f1" => (st, gated_rpn7 30 status)
    | "f2" => (st, gated_rpn7 31 status)
    | "f3" => (st, gated_rpn7 32 status)
    | "f4" => (st, gated_rpn7 33 status)
    | "f5" => (st, gated_rpn7 34 status)
    | "f6" => (st, gated_rpn7 35 status)
    | "f7" => (st, gated_rpn7 36 status)
    | "f8" => (st, gated_rpn7 37 status)
    | "page_right" => (st, gated_rpn7 38 status)
    | "page_left" => (st, gated_rpn7 39 status)
    | "A8" => (st, [MidiMessage.RPN7 Channel.Ch1 (controlbase) (status % 256)])
    | "B5" => (st, [MidiMessage.RPN7 Channel.Ch1 (controlbase + 1) (status % 256)])
    | "B6" => (st, [MidiMessage.RPN7 Channel.Ch1 (controlbase + 1) (status % 256)])
    | "B7" => (st, [MidiMessage.RPN7 Channel.Ch1 (controlbase + 1) (status % 256)])
    | "B8" => (st, [MidiMessage.RPN7 Channel.Ch1 (controlbase + 1) (status % 256)])
    | "C8" => (st, [MidiMessage.RPN7 Channel.Ch1 (controlbase + 1) (status % 256)])
    | "D5" => (st, [MidiMessage.RPN7 Channel.Ch1 (controlbase + 2) (status % 256)])
    | "D6" => (st, [MidiMessage.RPN7 Channel.Ch1 (controlbase + 2) (status % 256)])
    | "D7" => (st, [MidiMessage.RPN7 Channel.Ch1 (controlbase + 2) (status % 256)])
    | "D8" => (st, [MidiMessage.RPN7 Channel.Ch1 (controlbase + 2) (status % 256)])
    | "E8" => (st, [MidiMessage.RPN7 Channel.Ch1 (controlbase + 2) (status % 256)])
    | "FF5" => (st, [MidiMessage.RPN7 Channel.Ch1 (controlbase + 3) (status % 256)])
    | "FF6" => (st, [MidiMessage.RPN7 Channel.Ch1 (controlbase + 3) (status % 256)])
    | "FF7" => (st, [MidiMessage.RPN7 Channel.Ch1 (controlbase + 3) (status % 256)])
    | "FF8" => (st, [MidiMessage.RPN7 Channel.Ch1 (controlbase + 3) (status % 256)])
    | "G8" => (st, [MidiMessage.RPN7 Channel.Ch1 (controlbase + 3) (status % 256)])
    | "H5" => (st, [MidiMessage.RPN7 Channel.Ch1 (controlbase + 4) (status % 256)])
    | "H6" => (st, [MidiMessage.RPN7 Channel.Ch1 (controlbase + 4) (status % 256)])
    | "H7" => (st, [MidiMessage.RPN7 Channel.Ch1 (controlbase + 4) (status % 256)])
    | "H8" => (st, [MidiMessage.RPN7 Channel.Ch1 (controlbase + 4) (status % 256)])
    | "I8" => (st, [MidiMessage.RPN7 Channel.Ch1 (controlbase + 4) (status % 256)])
    | "J5" => (st, [MidiMessage.RPN7 Channel.Ch1 (controlbase + 5) (status % 256)])
    | "J6" => (st, [MidiMessage.RPN7 Channel.Ch1 (controlbase + 5) (status % 256)])
    | "J7" => (st, [MidiMessage.RPN7 Channel.Ch1 (controlbase + 5) (status % 256)])
    | "J8" => (st, [MidiMessage.RPN7 Channel.Ch1 (controlbase + 5) (status % 256)])
    | "K8" => (st, [MidiMessage.RPN7 Channel.Ch1 (controlbase + 5) (status % 256)])
    | "L5" => (st, [MidiMessage.RPN7 Channel.Ch1 (controlbase + 6) (status % 256)])
    | "L6" => (st, [MidiMessage.RPN7 Channel.Ch1 (controlbase + 6) (status % 256)])
    | "L7" => (st, [MidiMessage.RPN7 Channel.Ch1 (controlbase + 6) (status % 256)])
    | "L8" => (st, [MidiMessage.RPN7 Channel.Ch1 (controlbase + 6) (status % 256)])
    | "M8" => (st, [MidiMessage.RPN7 Channel.Ch1 (controlbase + 6) (status % 256)])
    | "N5" => (st, [MidiMessage.RPN7 Channel.Ch1 (controlbase + 7) (status % 256)])
    | "N6" => (st, [MidiMessage.RPN7 Channel.Ch1 (controlbase + 7) (status % 256)])
    | "N7" => (st, [MidiMessage.RPN7 Channel.Ch1 (controlbase + 7) (status % 256)])
    | "N8" => (st, [MidiMessage.RPN7 Channel.Ch1 (controlbase + 7) (status % 256)])
    | "O8" => (st, [MidiMessage.RPN7 Channel.Ch1 (controlbase + 7) (status % 256)])
    | "P5" => (st, [MidiMessage.RPN7 Channel.Ch1 (controlbase + 8) (status % 256)])
    | "P6" => (st, [MidiMessage.RPN7 Channel.Ch1 (controlbase + 8) (status % 256)])
    | "group_a" => (st.set_midi_note_base 24, [])
    | "group_b" => (st.set_midi_note_base 36, [])
    | "group_c" => (st.set_midi_note_base 48, [])
    | "group_d" => (st.set_midi_note_base 60, [])
    | "group_e" => (st.set_midi_note_base 72, [])
    | "group_f" => (st.set_midi_note_base 84, [])
    | "group_g" => (st.set_midi_note_base 96, [])
    | "group_h" => (st.set_midi_note_base 108, [])
    | _ => (st, [])
  (midiStep.1, midiStep.2, [OscMessage.mk ("/" ++ button) [OscArg.f (status : ℚ)]])

/-- MHandler::send_osc_encoder_msg. -/
def send_osc_encoder_msg (delta : ℤ) : List OscMessage :=
  [OscMessage.mk "/maschine/encoder" [OscArg.i delta]]

/-- MaschineHandler::pad_pressed for MHandler: note-on plus pad light at
sqrt pressure. The u8 note addition wraps (release-mode semantics). -/
def pad_pressed (self : MHandler) (ops : FloatOps) (st : MaschineState) (pad_idx : Fin 16)
    (pressure : ℚ) : MaschineState × List MidiMessage :=
  let midi_note := (st.get_midi_note_base + PAD_NOTE_MAP pad_idx) % 256
  (st.set_pad_light pad_idx.val (self.pad_color ops) (ops.sqrt pressure),
    [MidiMessage.NoteOn Channel.Ch1 midi_note (self.pressure_to_vel ops pressure)])

/-- MaschineHandler::pad_aftertouch for MHandler: suppressed for the
Constant shape and when send_aftertouch is off, otherwise polyphonic
pressure plus pad light at sqrt pressure. -/
def pad_aftertouch (self : MHandler) (ops : FloatOps) (st : MaschineState) (pad_idx : Fin 16)
    (pressure : ℚ) : MaschineState × List MidiMessage :=
  match self.pressure_shape with
  | PressureShape.Constant _ => (st, [])
  | _ =>
    if !self.send_aftertouch then (st, [])
    else
      let midi_note := (st.get_midi_note_base + PAD_NOTE_MAP pad_idx) % 256
      (st.set_pad_light pad_idx.val (self.pad_color ops) (ops.sqrt pressure),
        [MidiMessage.PolyphonicPressure Channel.Ch1 midi_note (self.pressure_to_vel ops pressure)])

/-- MaschineHandler::pad_released for MHandler: note-off velocity 0 plus
pad light at the released brightness constant. -/
def pad_released (self : MHandler) (ops : FloatOps) (st : MaschineState) (pad_idx : Fin 16) :
    MaschineState × List MidiMessage :=
  let midi_note := (st.get_midi_note_base + PAD_NOTE_MAP pad_idx) % 256
  (st.set_pad_light pad_idx.val (self.pad_color ops) PAD_RELEASED_BRIGHTNESS,
    [MidiMessage.NoteOff Channel.Ch1 midi_note 0])

/-- MaschineHandler::encoder_step for MHandler: OSC only, no MIDI. -/
def encoder_step (delta : ℤ) : List OscMessage :=
  send_osc_encoder_msg delta

/-- MaschineHandler::button_down for MHandler. -/
def button_down (st : MaschineState) (btn : MaschineButton) (byte : ℕ) :
    MaschineState × List MidiMessage × List OscMessage :=
  send_osc_button_msg st btn byte

/-- MaschineHandler::button_up for MHandler. -/
def button_up (st : MaschineState) (btn : MaschineButton) (byte : ℕ) :
    MaschineState × List MidiMessage × List OscMessage :=
  send_osc_button_msg st btn byte

/-- Handler configuration built by main(): hue 0 / saturation 1 /
lightness 0.3, Exponential(0.4) pressure shape, aftertouch off. -/
def main_mhandler : MHandler :=
  { color := { h := 0, s := 1, l := 3 / 10 }
    pressure_shape := PressureShape.Exponential (2 / 5)
    send_aftertouch := false }

/-- Concrete FloatOps instance for witnesses (pointwise values of the
abstracted f32 operations are irrelevant to every claim). -/
def trivialFloatOps : FloatOps :=
  { sqrt := fun q => q
    powf := fun q _ => q
    to_rgb := fun _ => (0, 0, 0) }

/-- Concrete handler with the Linear shape, for witnesses. -/
def linearHandler : MHandler :=
  { color := { h := 0, s := 1, l := 3 / 10 }
    pressure_shape := PressureShape.Linear
    send_aftertouch := true }

/-- Concrete empty device state, for witnesses. -/
def initState : MaschineState :=
  { midi_note_base := 0
    pad_lights := fun _ => (0, 0)
    button_lights := fun _ => (0, 0) }

/-- Modelled from the spec's words for claim C2 (refinement comparison):
the spec says the shaper returns round(value * 127), with round-to-nearest. -/
def vel_spec_round (value : ℚ) : ℤ := round (value * 127)

/-- Light-table lookup after setting that same pad's light (the in-range
branch of set_pad_light followed by Function.update at the same point). -/
theorem set_pad_light_pad_lights_same (st : MaschineState) (i : Fin 16) (rgb : ℕ) (b : ℚ) :
    (st.set_pad_light i.val rgb b).pad_lights i = (rgb, b) := by
  unfold MaschineState.set_pad_light
  rw [dif_pos i.isLt]
  simp [Function.update]

set_option maxHeartbeats 1000000 in
/-- Left-inverse property of the canonical name reading: the forward map
followed by the canonical reverse map recovers the identifier, except that
FF7 comes back as FF8 (both produce the name FF8). -/
theorem osc_name_canonical_btn_leftinv (b : MaschineButton) :
    osc_name_canonical_btn (btn_to_osc_button_map b) =
      some (if b = MaschineButton.FF7 then MaschineButton.FF8 else b) := by
  cases b <;> rfl

/-- C1: pad_pressed emits exactly one MIDI Note On on channel 1 with note
midi_note_base + PAD_NOTE_MAP[i] (the u8 addition staying in range) and
velocity pressure_to_vel(p), and sets pad i's light to the current base
color at brightness sqrt(p); moreover an inbound OSC /maschine/midi_note_base
message with integer argument 36 stores note base 36, after which a pad 0
press (offset 12) produces MIDI note 48. -/
theorem c1_pad_pressed_note_on (self : MHandler) (ops : FloatOps) (st : MaschineState)
    (pad_idx : Fin 16) (pressure : ℚ)
    (hbase : st.midi_note_base + PAD_NOTE_MAP pad_idx ≤ 255) :
    (pad_pressed self ops st pad_idx pressure).2 =
      [MidiMessage.NoteOn Channel.Ch1 (st.midi_note_base + PAD_NOTE_MAP pad_idx)
        (self.pressure_to_vel ops pressure)] ∧
    (pad_pressed self ops st pad_idx pressure).1.pad_lights pad_idx =
      (self.pad_color ops, ops.sqrt pressure) ∧
    handle_osc_messge st (OscMessage.mk "/maschine/midi_note_base" [OscArg.i 36]) =
      some (st.set_midi_note_base 36) ∧
    (pad_pressed self ops (st.set_midi_note_base 36) 0 pressure).2 =
      [MidiMessage.NoteOn Channel.Ch1 48 (self.pressure_to_vel ops pressure)] := by
  have h2 : (st.midi_note_base + PAD_NOTE_MAP pad_idx) % 256 =
      st.midi_note_base + PAD_NOTE_MAP pad_idx := Nat.mod_eq_of_lt (by omega)
  refine ⟨?_, set_pad_light_pad_lights_same st pad_idx _ _, rfl, rfl⟩
  show [MidiMessage.NoteOn Channel.Ch1 ((st.midi_note_base + PAD_NOTE_MAP pad_idx) % 256)
    (self.pressure_to_vel ops pressure)] = _
  rw [h2]

/-- Witness for c1_pad_pressed_note_on: empty state, pad 3, pressure 1. -/
theorem c1_pad_pressed_note_on_witness :
    initState.midi_note_base + PAD_NOTE_MAP 3 ≤ 255 ∧
    (pad_pressed linearHandler trivialFloatOps initState 3 1).2 =
      [MidiMessage.NoteOn Channel.Ch1 (initState.midi_note_base + PAD_NOTE_MAP 3)
        (linearHandler.pressure_to_vel trivialFloatOps 1)] :=
  ⟨by decide, (c1_pad_pressed_note_on linearHandler trivialFloatOps initState 3 1 (by decide)).1⟩

/-- C2 (counterexample): with the Linear shape at pressure 1/2 the code
yields 63 — the `as U7` cast truncates 63.5 — while the claimed
round(p * 127) is 64. -/
theorem c2_shaper_rounds_counterexample :
    MHandler.pressure_to_vel linearHandler trivialFloatOps (1 / 2) = 63 ∧
    vel_spec_round (1 / 2) = 64 := by
  constructor
  · show f32_as_u8 ((1 / 2 : ℚ) * 127) = 63
    unfold f32_as_u8
    norm_num
    decide
  · norm_num [vel_spec_round, round_eq]

/-- C2 (amended): the shaper truncates rather than rounds: Linear returns
trunc(p * 127), Exponential with exponent k returns trunc(powf(p, k) * 127),
Constant returns trunc(c * 127) independently of p, where trunc is the
truncating saturating f32-to-u8 cast. -/
theorem c2_shaper_truncates (color : HSL) (aft : Bool) (ops : FloatOps) (k c p q : ℚ) :
    MHandler.pressure_to_vel ⟨color, PressureShape.Linear, aft⟩ ops p = f32_as_u8 (p * 127) ∧
    MHandler.pressure_to_vel ⟨color, PressureShape.Exponential k, aft⟩ ops p =
      f32_as_u8 (ops.powf p k * 127) ∧
    MHandler.pressure_to_vel ⟨color, PressureShape.Constant c, aft⟩ ops p =
      f32_as_u8 (c * 127) ∧
    MHandler.pressure_to_vel ⟨color, PressureShape.Constant c, aft⟩ ops p =
      MHandler.pressure_to_vel ⟨color, PressureShape.Constant c, aft⟩ ops q :=
  ⟨rfl, rfl, rfl, rfl⟩

/-- C3 (counterexample): FF7 and FF8 are distinct identifiers mapped to
the same OSC name string, so the mapping is not injective. -/
theorem c3_injectivity_counterexample :
    btn_to_osc_button_map MaschineButton.FF7 = btn_to_osc_button_map MaschineButton.FF8 ∧
    MaschineButton.FF7 ≠ MaschineButton.FF8 :=
  ⟨rfl, by decide⟩

/-- C3 (amended): the identifier-to-OSC-name mapping is a total function
(total by construction over the closed enumeration) that is injective
except for the single FF7/FF8 collision: two identifiers with the same
name are equal or both lie in the pair FF7, FF8. -/
theorem c3_osc_name_injective_except_ff (b1 b2 : MaschineButton)
    (hmap : btn_to_osc_button_map b1 = btn_to_osc_button_map b2) :
    b1 = b2 ∨ ((b1 = MaschineButton.FF7 ∨ b1 = MaschineButton.FF8) ∧
      (b2 = MaschineButton.FF7 ∨ b2 = MaschineButton.FF8)) := by
  have e1 := osc_name_canonical_btn_leftinv b1
  have e2 := osc_name_canonical_btn_leftinv b2
  rw [hmap, e2] at e1
  have e3 := Option.some.inj e1
  by_cases h1 : b1 = MaschineButton.FF7
  · by_cases h2 : b2 = MaschineButton.FF7
    · exact Or.inr ⟨Or.inl h1, Or.inl h2⟩
    · rw [if_neg h2, if_pos h1] at e3
      exact Or.inr ⟨Or.inl h1, Or.inr e3⟩
  · by_cases h2 : b2 = MaschineButton.FF7
    · rw [if_pos h2, if_neg h1] at e3
      exact Or.inr ⟨Or.inr e3.symm, Or.inl h2⟩
    · rw [if_neg h2, if_neg h1] at e3
      exact Or.inl e3.symm

/-- Witness for c3_osc_name_injective_except_ff at the colliding pair. -/
theorem c3_osc_name_injective_except_ff_witness :
    btn_to_osc_button_map MaschineButton.FF7 = btn_to_osc_button_map MaschineButton.FF8 ∧
    (MaschineButton.FF7 = MaschineButton.FF8 ∨
      ((MaschineButton.FF7 = MaschineButton.FF7 ∨ MaschineButton.FF7 = MaschineButton.FF8) ∧
        (MaschineButton.FF8 = MaschineButton.FF7 ∨ MaschineButton.FF8 = MaschineButton.FF8))) :=
  ⟨rfl, c3_osc_name_injective_except_ff MaschineButton.FF7 MaschineButton.FF8 rfl⟩

/-- C4 (code bug): the sixteen-byte path /maschine/button — an
unrecognized pattern — makes handle_osc_messge panic through the
out-of-bounds byte slice path[17..] (modelled as none) instead of being
silently ignored; a generic unknown path and a wrong argument shape are
indeed dropped with the state untouched. -/
theorem c4_unknown_osc_panics (st : MaschineState) :
    handle_osc_messge st (OscMessage.mk "/maschine/button" []) = none ∧
    handle_osc_messge st (OscMessage.mk "/foo/bar" [OscArg.i 1]) = some st ∧
    handle_osc_messge st (OscMessage.mk "/maschine/pad" [OscArg.f 1]) = some st ∧
    handle_osc_messge st (OscMessage.mk "/maschine/midi_note_base" [OscArg.s "x"]) = some st :=
  ⟨rfl, rfl, rfl, rfl⟩

/-- C5: a button_down on any of the eight pad-group-select buttons emits
no MIDI (RPN) message and sets midi_note_base to the group's fixed value
24, 36, 48, 60, 72, 84, 96 or 108. -/
theorem c5_group_buttons_set_note_base (st : MaschineState) (v : ℕ) :
    (button_down st MaschineButton.GroupA v).2.1 = [] ∧
    (button_down st MaschineButton.GroupA v).1.midi_note_base = 24 ∧
    (button_down st MaschineButton.GroupB v).2.1 = [] ∧
    (button_down st MaschineButton.GroupB v).1.midi_note_base = 36 ∧
    (button_down st MaschineButton.GroupC v).2.1 = [] ∧
    (button_down st MaschineButton.GroupC v).1.midi_note_base = 48 ∧
    (button_down st MaschineButton.GroupD v).2.1 = [] ∧
    (button_down st MaschineButton.GroupD v).1.midi_note_base = 60 ∧
    (button_down st MaschineButton.GroupE v).2.1 = [] ∧
    (button_down st MaschineButton.GroupE v).1.midi_note_base = 72 ∧
    (button_down st MaschineButton.GroupF v).2.1 = [] ∧
    (button_down st MaschineButton.GroupF v).1.midi_note_base = 84 ∧
    (button_down st MaschineButton.GroupG v).2.1 = [] ∧
    (button_down st MaschineButton.GroupG v).1.midi_note_base = 96 ∧
    (button_down st MaschineButton.GroupH v).2.1 = [] ∧
    (button_down st MaschineButton.GroupH v).1.midi_note_base = 108 :=
  ⟨rfl, rfl, rfl, rfl, rfl, rfl, rfl, rfl, rfl, rfl, rfl, rfl, rfl, rfl, rfl, rfl⟩

/-- C6: every button_down or button_up event for identifier b with raw
byte v sends exactly one outbound OSC datagram at path /name-of-b with a
single float argument equal to v, whatever the MIDI side effect was. -/
theorem c6_button_osc_mirror (st : MaschineState) (btn : MaschineButton) (v : ℕ) :
    (button_down st btn v).2.2 =
      [OscMessage.mk ("/" ++ btn_to_osc_button_map btn) [OscArg.f (v : ℚ)]] ∧
    (button_up st btn v).2.2 =
      [OscMessage.mk ("/" ++ btn_to_osc_button_map btn) [OscArg.f (v : ℚ)]] :=
  ⟨rfl, rfl⟩

/-- C7: pad_aftertouch is suppressed entirely (no MIDI message, no state
change) when the configured shape is Constant or send_aftertouch is off,
and otherwise emits a polyphonic pressure message with note
midi_note_base + PAD_NOTE_MAP[i] (the u8 addition staying in range) and
value pressure_to_vel(p). -/
theorem c7_pad_aftertouch_behavior (self : MHandler) (ops : FloatOps) (st : MaschineState)
    (pad_idx : Fin 16) (pressure : ℚ)
    (hbase : st.midi_note_base + PAD_NOTE_MAP pad_idx ≤ 255) :
    (self.pressure_shape.is_constant = true ∨ self.send_aftertouch = false →
      pad_aftertouch self ops st pad_idx pressure = (st, [])) ∧
    (self.pressure_shape.is_constant = false → self.send_aftertouch = true →
      (pad_aftertouch self ops st pad_idx pressure).2 =
        [MidiMessage.PolyphonicPressure Channel.Ch1
          (st.midi_note_base + PAD_NOTE_MAP pad_idx) (self.pressure_to_vel ops pressure)]) := by
  have h2 : (st.midi_note_base + PAD_NOTE_MAP pad_idx) % 256 =
      st.midi_note_base + PAD_NOTE_MAP pad_idx := Nat.mod_eq_of_lt (by omega)
  obtain ⟨c0, ps, sa⟩ := self
  constructor
  · rintro (hc | hsa)
    · cases ps with
      | Constant c => rfl
      | Linear => simp [PressureShape.is_constant] at hc
      | Exponential k => simp [PressureShape.is_constant] at hc
    · rw [show sa = false from hsa]
      cases ps <;> rfl
  · intro hc hsa
    rw [show sa = true from hsa]
    cases ps with
    | Constant c => simp [PressureShape.is_constant] at hc
    | Linear =>
      show [MidiMessage.PolyphonicPressure Channel.Ch1
        ((st.midi_note_base + PAD_NOTE_MAP pad_idx) % 256) _] = _
      rw [h2]
    | Exponential k =>
      show [MidiMessage.PolyphonicPressure Channel.Ch1
        ((st.midi_note_base + PAD_NOTE_MAP pad_idx) % 256) _] = _
      rw [h2]

/-- Witness for c7_pad_aftertouch_behavior: Linear shape with aftertouch
on, empty state, pad 0, pressure 1. -/
theorem c7_pad_aftertouch_behavior_witness :
    initState.midi_note_base + PAD_NOTE_MAP 0 ≤ 255 ∧
    (pad_aftertouch linearHandler trivialFloatOps initState 0 1).2 =
      [MidiMessage.PolyphonicPressure Channel.Ch1
        (initState.midi_note_base + PAD_NOTE_MAP 0)
        (linearHandler.pressure_to_vel trivialFloatOps 1)] :=
  ⟨by decide,
    (c7_pad_aftertouch_behavior linearHandler trivialFloatOps initState 0 1 (by decide)).2 rfl rfl⟩

/-- C8: pad_released emits exactly one Note Off with velocity 0 and note
midi_note_base + PAD_NOTE_MAP[i] (the u8 addition staying in range), and
sets that pad's light to the base color at the released-brightness
constant, which equals 0.015. -/
theorem c8_pad_released_note_off (self : MHandler) (ops : FloatOps) (st : MaschineState)
    (pad_idx : Fin 16)
    (hbase : st.midi_note_base + PAD_NOTE_MAP pad_idx ≤ 255) :
    (pad_released self ops st pad_idx).2 =
      [MidiMessage.NoteOff Channel.Ch1 (st.midi_note_base + PAD_NOTE_MAP pad_idx) 0] ∧
    (pad_released self ops st pad_idx).1.pad_lights pad_idx =
      (self.pad_color ops, PAD_RELEASED_BRIGHTNESS) ∧
    PAD_RELEASED_BRIGHTNESS = 15 / 1000 := by
  have h2 : (st.midi_note_base + PAD_NOTE_MAP pad_idx) % 256 =
      st.midi_note_base + PAD_NOTE_MAP pad_idx := Nat.mod_eq_of_lt (by omega)
  refine ⟨?_, set_pad_light_pad_lights_same st pad_idx _ _, rfl⟩
  show [MidiMessage.NoteOff Channel.Ch1 ((st.midi_note_base + PAD_NOTE_MAP pad_idx) % 256) 0] = _
  rw [h2]

/-- Witness for c8_pad_released_note_off: empty state, pad 5. -/
theorem c8_pad_released_note_off_witness :
    initState.midi_note_base + PAD_NOTE_MAP 5 ≤ 255 ∧
    (pad_released linearHandler trivialFloatOps initState 5).2 =
      [MidiMessage.NoteOff Channel.Ch1 (initState.midi_note_base + PAD_NOTE_MAP 5) 0] :=
  ⟨by decide, (c8_pad_released_note_off linearHandler trivialFloatOps initState 5 (by decide)).1⟩

/-- C9: the note computation is unguarded u8 addition: an OSC
/maschine/midi_note_base message with argument 250 stores base 250 without
validation, which exceeds 255 - PAD_NOTE_MAP[0]; the subsequent pad 0
press wraps the 262 sum to the byte 6 instead of the true sum. -/
theorem c9_note_base_overflow (self : MHandler) (ops : FloatOps) (st0 : MaschineState)
    (pressure : ℚ) :
    handle_osc_messge st0 (OscMessage.mk "/maschine/midi_note_base" [OscArg.i 250]) =
      some (st0.set_midi_note_base 250) ∧
    (st0.set_midi_note_base 250).midi_note_base = 250 ∧
    255 < (st0.set_midi_note_base 250).midi_note_base + PAD_NOTE_MAP 0 ∧
    (pad_pressed self ops (st0.set_midi_note_base 250) 0 pressure).2 =
      [MidiMessage.NoteOn Channel.Ch1 ((250 + PAD_NOTE_MAP 0) % 256)
        (self.pressure_to_vel ops pressure)] ∧
    (250 + PAD_NOTE_MAP 0) % 256 = 6 ∧
    (6 : ℕ) ≠ 250 + PAD_NOTE_MAP 0 :=
  ⟨rfl, rfl,
    by show (255 : ℕ) < 250 % 256 + PAD_NOTE_MAP 0; decide,
    rfl, rfl, by decide⟩

/-- C10: with the configuration built by main (Exponential(0.4) shape,
send_aftertouch off), pad_aftertouch is a complete no-op: state returned
unchanged and no MIDI message emitted, for every pad and pressure. -/
theorem c10_main_aftertouch_noop (ops : FloatOps) (st : MaschineState) (pad_idx : Fin 16)
    (pressure : ℚ) :
    pad_aftertouch main_mhandler ops st pad_idx pressure = (st, []) :=
  rfl
